import Mathlib

/-!
Verification of the Roadbook backend (`src/app/main.py`), a FastAPI + SQLAlchemy
service storing journey records with an AI chat-create endpoint.

Shallow embedding choices:
* The SQLite `journey` table is a `List Journey` (field order: id, name,
  description, ai_response as in the source model).
* The Mistral call `client.chat.complete(...)` followed by
  `chat_response.choices[0].message.content` is modelled as an external input
  `aiCall : Except String String`: `.ok r` is the extracted reply text, and
  `.error e` models any raised exception with `str(e) = e`.
* `db.commit()` and the subsequent `db.refresh(new_journey)` inside the chat
  handler's `try` block may also raise; they are modelled by
  `commit refresh : Except String Unit`. A failed commit rolls back, leaving
  the table unchanged; a failed refresh happens after a successful commit, so
  the new row is already persisted when the 500 is returned.
* `str(uuid.uuid4())` id generation is modelled by an explicit `freshId`
  argument; `isUuid4String` characterises the textual shape such a value has.
* FastAPI validates the request body with pydantic before a handler runs; a raw
  JSON body and the pydantic check of `JourneyCreate` are modelled explicitly,
  with a 422 response naming the offending fields on failure.
-/

/-- A row of the `journey` table (`class Journey(Base)` in the source):
`id` (primary key), `name`, `description`, `ai_response` (nullable). -/
structure Journey where
  id : String
  name : String
  description : String
  ai_response : Option String
deriving Repr, DecidableEq

/-- The `journey` table of the SQLite database. -/
abbrev DB := List Journey

/-- The pydantic request schema `JourneyCreate`: required `name` and
`description`, optional `ai_response` defaulting to `None`. -/
structure JourneyCreate where
  name : String
  description : String
  ai_response : Option String
deriving Repr, DecidableEq

/-- A JSON value appearing in a request-body field. -/
inductive JVal where
  | jstr (s : String)
  | jnum (n : Int)
  | jbool (b : Bool)
  | jnull
deriving Repr, DecidableEq

/-- A raw request body for the create endpoints: each of the three fields of
`JourneyCreate` is either absent (`none`) or holds some JSON value. -/
structure RawBody where
  name : Option JVal
  description : Option JVal
  ai_response : Option JVal
deriving Repr, DecidableEq

/-- pydantic check for a required `str` field: present and a string. -/
def strOk : Option JVal → Bool
  | some (JVal.jstr _) => true
  | _ => false

/-- pydantic check for an `Optional[str] = None` field: absent, null, or a
string. -/
def optStrOk : Option JVal → Bool
  | none => true
  | some JVal.jnull => true
  | some (JVal.jstr _) => true
  | _ => false

/-- The fields of a raw body that fail the `JourneyCreate` schema, in
declaration order — these are the field names pydantic reports in the 422
response. -/
def fieldErrors (r : RawBody) : List String :=
  (if strOk r.name then [] else ["name"]) ++
  (if strOk r.description then [] else ["description"]) ++
  (if optStrOk r.ai_response then [] else ["ai_response"])

/-- Extract a validated required string field (only used once `strOk` held). -/
def getStr : Option JVal → String
  | some (JVal.jstr s) => s
  | _ => ""

/-- Extract a validated optional string field. -/
def getOptStr : Option JVal → Option String
  | some (JVal.jstr s) => some s
  | _ => none

/-- pydantic validation of a raw body against `JourneyCreate`: succeeds exactly
when no field is offending, otherwise reports the offending fields. -/
def validateJourneyCreate (r : RawBody) : Except (List String) JourneyCreate :=
  if fieldErrors r = [] then
    Except.ok ⟨getStr r.name, getStr r.description, getOptStr r.ai_response⟩
  else
    Except.error (fieldErrors r)

/-- The body of an HTTP response produced by the service. -/
inductive Body where
  /-- A `JourneyResponse`-shaped record (id, name, description, ai_response). -/
  | record (j : Journey)
  /-- A list of `JourneyResponse`-shaped records. -/
  | records (js : List Journey)
  /-- The chat endpoint's `{"response": ...}` body. -/
  | chat (response : String)
  /-- A `{"message": ...}` body. -/
  | message (m : String)
  /-- An `HTTPException` body `{"detail": ...}`. -/
  | detail (d : String)
  /-- FastAPI's 422 body naming the fields that failed validation. -/
  | invalidFields (fields : List String)
deriving Repr, DecidableEq

/-- An HTTP response: status code and body. -/
structure Response where
  status : Nat
  body : Body
deriving Repr, DecidableEq

/-- `db.query(Journey).filter(Journey.id == journey_id).first()`. -/
def firstMatch (journey_id : String) (db : DB) : Option Journey :=
  db.find? (fun j => j.id == journey_id)

/-- Replace the first row whose id matches (SQLAlchemy mutates the fetched row
in place and commits). -/
def replaceFirst (journey_id : String) (updated : Journey) : DB → DB
  | [] => []
  | j :: rest =>
    if j.id == journey_id then updated :: rest
    else j :: replaceFirst journey_id updated rest

/-- Remove the first row whose id matches (`db.delete` of the fetched row). -/
def eraseFirst (journey_id : String) : DB → DB
  | [] => []
  | j :: rest =>
    if j.id == journey_id then rest else j :: eraseFirst journey_id rest

/-- Handler of `POST /journey/chat` (`chat_with_mistral`): calls the AI,
builds a new `Journey` with a fresh uuid and `ai_response` set to the reply,
commits, refreshes the row and returns `{"response": ...}`; any exception in
the `try` block (the AI call, the commit, or the refresh) becomes a 500 with
`str(e)` as `detail`. The refresh runs after the commit succeeded, so a
raising refresh still leaves the new row persisted. -/
def chat_with_mistral (journey : JourneyCreate) (aiCall : Except String String)
    (commit refresh : Except String Unit) (freshId : String) (db : DB) :
    Response × DB :=
  match aiCall with
  | Except.error e => (⟨500, Body.detail e⟩, db)
  | Except.ok ai_response =>
    let new_journey : Journey :=
      ⟨freshId, journey.name, journey.description, some ai_response⟩
    match commit with
    | Except.error e => (⟨500, Body.detail e⟩, db)
    | Except.ok _ =>
      match refresh with
      | Except.error e => (⟨500, Body.detail e⟩, db ++ [new_journey])
      | Except.ok _ => (⟨200, Body.chat ai_response⟩, db ++ [new_journey])

/-- Handler of `POST /journeys/` (`create_journey`): inserts a row built from
`name` and `description` only — `ai_response` is not passed, so the column is
NULL; the id comes from the column default `str(uuid.uuid4())`. -/
def create_journey (journey : JourneyCreate) (freshId : String) (db : DB) :
    Response × DB :=
  let db_journey : Journey := ⟨freshId, journey.name, journey.description, none⟩
  (⟨200, Body.record db_journey⟩, db ++ [db_journey])

/-- Handler of `GET /journeys/{journey_id}` (`read_journey`). -/
def read_journey (journey_id : String) (db : DB) : Response × DB :=
  match firstMatch journey_id db with
  | none => (⟨404, Body.detail "Journey not found"⟩, db)
  | some journey => (⟨200, Body.record journey⟩, db)

/-- Handler of `GET /journeys/` (`read_journeys`). -/
def read_journeys (db : DB) : Response × DB :=
  (⟨200, Body.records db⟩, db)

/-- Handler of `PUT /journeys/{journey_id}` (`update_journey`): fetches the
row, overwrites `name` and `description` in place, commits, returns the
updated row; 404 when no row matches. -/
def update_journey (journey_id : String) (journey : JourneyCreate) (db : DB) :
    Response × DB :=
  match firstMatch journey_id db with
  | none => (⟨404, Body.detail "Journey not found"⟩, db)
  | some db_journey =>
    let updated : Journey :=
      ⟨db_journey.id, journey.name, journey.description, db_journey.ai_response⟩
    (⟨200, Body.record updated⟩, replaceFirst journey_id updated db)

/-- Handler of `DELETE /journeys/{journey_id}` (`delete_journey`). -/
def delete_journey (journey_id : String) (db : DB) : Response × DB :=
  match firstMatch journey_id db with
  | none => (⟨404, Body.detail "Journey not found"⟩, db)
  | some _ =>
    (⟨200, Body.message "Journey deleted successfully"⟩, eraseFirst journey_id db)

/-- The full `POST /journey/chat` endpoint: FastAPI validates the body against
`JourneyCreate` before the handler runs; a validation failure is a 422 naming
the offending fields and the handler (hence the store and the AI client) is
never invoked. -/
def postJourneyChat (raw : RawBody) (aiCall : Except String String)
    (commit refresh : Except String Unit) (freshId : String) (db : DB) :
    Response × DB :=
  match validateJourneyCreate raw with
  | Except.error fields => (⟨422, Body.invalidFields fields⟩, db)
  | Except.ok jc => chat_with_mistral jc aiCall commit refresh freshId db

/-- The full `POST /journeys/` endpoint: pydantic validation, then the
handler. -/
def postJourneys (raw : RawBody) (freshId : String) (db : DB) :
    Response × DB :=
  match validateJourneyCreate raw with
  | Except.error fields => (⟨422, Body.invalidFields fields⟩, db)
  | Except.ok jc => create_journey jc freshId db

/-- The full `PUT /journeys/{journey_id}` endpoint: this route also takes a
`JourneyCreate` body, which pydantic validates before `update_journey` runs. -/
def putJourneys (journey_id : String) (raw : RawBody) (db : DB) :
    Response × DB :=
  match validateJourneyCreate raw with
  | Except.error fields => (⟨422, Body.invalidFields fields⟩, db)
  | Except.ok jc => update_journey journey_id jc db

/-- A hexadecimal digit as `str(uuid.uuid4())` prints them (lowercase). -/
def isHexDigitChar (c : Char) : Bool :=
  c.isDigit || (('a' ≤ c) && (c ≤ 'f'))

/-- Textual shape of `str(uuid.uuid4())`: 36 characters, hyphens at positions
8, 13, 18, 23, the version nibble `4` at position 14, hex digits elsewhere. -/
def isUuid4String (s : String) : Bool :=
  s.length == 36 &&
  (s.toList.enum.all fun p =>
    if p.1 == 8 || p.1 == 13 || p.1 == 18 || p.1 == 23 then p.2 == '-'
    else if p.1 == 14 then p.2 == '4'
    else isHexDigitChar p.2)

/-- The ids of the rows of the table. -/
def ids (db : DB) : List String := db.map Journey.id

/-! ## Helper lemmas about the table operations -/

theorem firstMatch_eq_none_iff (x : String) (db : DB) :
    firstMatch x db = none ↔ x ∉ ids db := by
  simp only [firstMatch, List.find?_eq_none, ids, List.mem_map]
  constructor
  · rintro h ⟨j, hj, hid⟩
    exact h j hj (by simp [hid])
  · intro h j hj hp
    exact h ⟨j, hj, by simpa using hp⟩

theorem firstMatch_id (x : String) (db : DB) (j : Journey)
    (h : firstMatch x db = some j) : j.id = x := by
  have := List.find?_some h
  simpa using this

theorem firstMatch_append_fresh (x : String) (db : DB) (j : Journey)
    (hx : j.id = x) (hfresh : x ∉ ids db) :
    firstMatch x (db ++ [j]) = some j := by
  induction db with
  | nil => simp [firstMatch, List.find?_cons, hx]
  | cons a t ih =>
    have ha : ¬ a.id = x := by
      simp [ids] at hfresh
      exact fun hc => (hfresh.1 hc.symm)
    have ht : x ∉ ids t := by
      simp [ids] at hfresh ⊢
      exact fun b hb hid => hfresh.2 b hb hid
    have := ih ht
    simpa [firstMatch, List.find?_cons, ha] using this

theorem firstMatch_replaceFirst (x : String) (u : Journey) (db : DB) (j : Journey)
    (hu : u.id = x) (h : firstMatch x db = some j) :
    firstMatch x (replaceFirst x u db) = some u := by
  induction db with
  | nil => simp [firstMatch] at h
  | cons a t ih =>
    by_cases ha : a.id = x
    · simp [replaceFirst, ha, firstMatch, List.find?_cons, hu]
    · have h' : firstMatch x t = some j := by
        simpa [firstMatch, List.find?_cons, ha] using h
      have := ih h'
      simpa [replaceFirst, ha, firstMatch, List.find?_cons] using this

theorem not_mem_ids_eraseFirst (x : String) (db : DB)
    (hnd : (ids db).Nodup) : x ∉ ids (eraseFirst x db) := by
  induction db with
  | nil => simp [eraseFirst, ids]
  | cons a t ih =>
    have hnd' : (ids t).Nodup := by
      simp [ids, List.nodup_cons] at hnd
      exact hnd.2
    have hna : a.id ∉ ids t := by
      simp [ids, List.nodup_cons] at hnd
      intro hc
      simp [ids] at hc
      obtain ⟨b, hb, hid⟩ := hc
      exact hnd.1 b hb hid
    by_cases ha : a.id = x
    · subst ha
      simpa [eraseFirst] using hna
    · have := ih hnd'
      simp [eraseFirst, ha, ids] at this ⊢
      exact ⟨fun hc => ha hc.symm, fun b hb hid => this b hb hid⟩

theorem ids_append_single (db : DB) (j : Journey) :
    ids (db ++ [j]) = ids db ++ [j.id] := by
  simp [ids]

theorem ids_snoc_nodup (db : DB) (j : Journey) (hnd : (ids db).Nodup)
    (h : j.id ∉ ids db) : (ids (db ++ [j])).Nodup := by
  rw [ids_append_single]
  refine List.Nodup.append hnd (List.nodup_singleton _) ?_
  intro b hb hb'
  simp at hb'
  subst hb'
  exact h hb

/-! ## Claims -/

/-- C1: if the AI call in the chat-create handler raises with message `e`, the
endpoint returns HTTP 500 with `e` as `detail`, and the table after the failed
request equals the table before it — no partial write. -/
theorem c1_chat_ai_failure_500_no_write (journey : JourneyCreate) (e : String)
    (commit refresh : Except String Unit) (freshId : String) (db : DB) :
    chat_with_mistral journey (Except.error e) commit refresh freshId db
      = (⟨500, Body.detail e⟩, db) := rfl

/-- C2: for every valid chat-create body, if the AI returns reply `r`, the
endpoint responds 200 with `{response: r}` and exactly one new record is
appended, with the request's name and description and with `ai_response = r`. -/
theorem c2_chat_create_persists_reply (raw : RawBody) (jc : JourneyCreate)
    (r freshId : String) (db : DB)
    (hv : validateJourneyCreate raw = Except.ok jc) :
    postJourneyChat raw (Except.ok r) (Except.ok ()) (Except.ok ()) freshId db
      = (⟨200, Body.chat r⟩,
         db ++ [⟨freshId, jc.name, jc.description, some r⟩]) := by
  simp [postJourneyChat, hv, chat_with_mistral]

/-- Witness for C2 at the spec's concrete scenario: body
`{name: "Trip", description: "Plan my trip"}`, AI mocked to `"Bonjour!"`. -/
theorem c2_witness :
    postJourneyChat
        ⟨some (JVal.jstr "Trip"), some (JVal.jstr "Plan my trip"), none⟩
        (Except.ok "Bonjour!") (Except.ok ()) (Except.ok ()) "id-1" []
      = (⟨200, Body.chat "Bonjour!"⟩,
         [⟨"id-1", "Trip", "Plan my trip", some "Bonjour!"⟩]) :=
  c2_chat_create_persists_reply _ ⟨"Trip", "Plan my trip", none⟩ _ _ _ rfl

/-- C10 (implicit): when the id is absent from the table, the read-one, update
and delete handlers raise their 404 before performing any write, so the table
is exactly unchanged. -/
theorem c10_absent_id_leaves_table_unchanged (x : String) (jc : JourneyCreate)
    (db : DB) (habs : firstMatch x db = none) :
    (read_journey x db).2 = db
    ∧ (update_journey x jc db).2 = db
    ∧ (delete_journey x db).2 = db := by
  refine ⟨?_, ?_, ?_⟩ <;> simp [read_journey, update_journey, delete_journey, habs]

/-- Witness for C10: a one-row table addressed at a missing id. -/
theorem c10_witness :
    (read_journey "zzz" [⟨"a", "n", "d", none⟩]).2 = [⟨"a", "n", "d", none⟩]
    ∧ (update_journey "zzz" ⟨"n2", "d2", none⟩ [⟨"a", "n", "d", none⟩]).2
        = [⟨"a", "n", "d", none⟩]
    ∧ (delete_journey "zzz" [⟨"a", "n", "d", none⟩]).2 = [⟨"a", "n", "d", none⟩] :=
  c10_absent_id_leaves_table_unchanged "zzz" ⟨"n2", "d2", none⟩ _ (by decide)

/-- C9: every valid plain-create request — including one whose body supplies an
`ai_response` value — persists and returns a record whose `ai_response` is
empty: the handler builds the row from `name` and `description` only. -/
theorem c9_plain_create_drops_client_ai_response (raw : RawBody)
    (jc : JourneyCreate) (freshId : String) (db : DB)
    (hv : validateJourneyCreate raw = Except.ok jc) :
    postJourneys raw freshId db
      = (⟨200, Body.record ⟨freshId, jc.name, jc.description, none⟩⟩,
         db ++ [⟨freshId, jc.name, jc.description, none⟩]) := by
  simp [postJourneys, hv, create_journey]

/-- Witness for C9: the client supplies `ai_response = "client junk"`, the
stored and returned record still has no `ai_response`. -/
theorem c9_witness :
    postJourneys
        ⟨some (JVal.jstr "Trip"), some (JVal.jstr "Nice"), some (JVal.jstr "client junk")⟩
        "id-9" []
      = (⟨200, Body.record ⟨"id-9", "Trip", "Nice", none⟩⟩,
         [⟨"id-9", "Trip", "Nice", none⟩]) :=
  c9_plain_create_drops_client_ai_response _ ⟨"Trip", "Nice", some "client junk"⟩ _ _ rfl

/-- C8: a body failing type/presence checks is rejected with a 422 client error
naming exactly the offending fields, before any handler (and hence the store)
is reached — the table is unchanged on all three body-accepting routes:
POST /journeys/, POST /journey/chat and PUT /journeys/{journey_id}, the last
even when the addressed id exists. -/
theorem c8_validation_rejects_before_store (raw : RawBody) (fs : List String)
    (aiCall : Except String String) (commit refresh : Except String Unit)
    (journey_id freshId : String) (db : DB)
    (hv : validateJourneyCreate raw = Except.error fs) :
    postJourneys raw freshId db = (⟨422, Body.invalidFields fs⟩, db)
    ∧ postJourneyChat raw aiCall commit refresh freshId db
        = (⟨422, Body.invalidFields fs⟩, db)
    ∧ putJourneys journey_id raw db = (⟨422, Body.invalidFields fs⟩, db)
    ∧ fs = fieldErrors raw
    ∧ fs ≠ [] := by
  have hfe : ¬ fieldErrors raw = [] := by
    intro h
    rw [validateJourneyCreate, if_pos h] at hv
    exact Except.noConfusion hv
  have hfs : fs = fieldErrors raw := by
    rw [validateJourneyCreate, if_neg hfe] at hv
    exact (Except.error.inj hv).symm
  refine ⟨?_, ?_, ?_, hfs, by rw [hfs]; exact hfe⟩ <;>
    simp [postJourneys, postJourneyChat, putJourneys, hv]

/-- Witness for C8: a body missing `name` and with a non-string `description`
is rejected with both offending fields named and the store untouched, on the
plain create and on an update addressed at an existing record. -/
theorem c8_witness :
    postJourneys ⟨none, some (JVal.jnum 5), none⟩ "id-8" [⟨"a", "n", "d", none⟩]
        = (⟨422, Body.invalidFields ["name", "description"]⟩, [⟨"a", "n", "d", none⟩])
    ∧ putJourneys "a" ⟨none, some (JVal.jnum 5), none⟩ [⟨"a", "n", "d", none⟩]
        = (⟨422, Body.invalidFields ["name", "description"]⟩, [⟨"a", "n", "d", none⟩])
    ∧ ["name", "description"] ≠ ([] : List String) :=
  ⟨(c8_validation_rejects_before_store ⟨none, some (JVal.jnum 5), none⟩
      ["name", "description"] (Except.ok "r") (Except.ok ()) (Except.ok ()) "a" "id-8"
      [⟨"a", "n", "d", none⟩] rfl).1,
   (c8_validation_rejects_before_store ⟨none, some (JVal.jnum 5), none⟩
      ["name", "description"] (Except.ok "r") (Except.ok ()) (Except.ok ()) "a" "id-8"
      [⟨"a", "n", "d", none⟩] rfl).2.2.1,
   (c8_validation_rejects_before_store ⟨none, some (JVal.jnum 5), none⟩
      ["name", "description"] (Except.ok "r") (Except.ok ()) (Except.ok ()) "a" "id-8"
      [⟨"a", "n", "d", none⟩] rfl).2.2.2.2⟩

/-- C3: round-trip — creating a record (on either path) and then reading it
by the id returned from create yields a record with the submitted name and
description, and on the chat path with `ai_response` equal to the stored AI
reply. The fresh-id hypothesis is what `str(uuid.uuid4())` plus the primary
key on `id` provide. -/
theorem c3_create_read_roundtrip (jc : JourneyCreate) (freshId r : String)
    (db : DB) (hfresh : freshId ∉ ids db) :
    read_journey freshId (create_journey jc freshId db).2
      = (⟨200, Body.record ⟨freshId, jc.name, jc.description, none⟩⟩,
         (create_journey jc freshId db).2)
    ∧ read_journey freshId
        (chat_with_mistral jc (Except.ok r) (Except.ok ()) (Except.ok ()) freshId db).2
      = (⟨200, Body.record ⟨freshId, jc.name, jc.description, some r⟩⟩,
         (chat_with_mistral jc (Except.ok r) (Except.ok ()) (Except.ok ()) freshId db).2) := by
  constructor
  · have h := firstMatch_append_fresh freshId db
      ⟨freshId, jc.name, jc.description, none⟩ rfl hfresh
    simp [read_journey, create_journey, h]
  · have h := firstMatch_append_fresh freshId db
      ⟨freshId, jc.name, jc.description, some r⟩ rfl hfresh
    simp [read_journey, chat_with_mistral, h]

/-- Witness for C3: create on an empty table with a concrete fresh id, then
read it back. -/
theorem c3_witness :
    read_journey "id-3" (create_journey ⟨"Trip", "Plan", none⟩ "id-3" []).2
      = (⟨200, Body.record ⟨"id-3", "Trip", "Plan", none⟩⟩,
         (create_journey ⟨"Trip", "Plan", none⟩ "id-3" []).2) :=
  (c3_create_read_roundtrip ⟨"Trip", "Plan", none⟩ "id-3" "Bonjour!" [] (by decide)).1

/-- C4: updating an existing record overwrites only `name` and `description`;
`id` and `ai_response` are exactly preserved in both the returned and the
stored record. -/
theorem c4_update_preserves_id_ai_response (x : String) (jc : JourneyCreate)
    (db : DB) (j : Journey) (h : firstMatch x db = some j) :
    update_journey x jc db
      = (⟨200, Body.record ⟨x, jc.name, jc.description, j.ai_response⟩⟩,
         replaceFirst x ⟨x, jc.name, jc.description, j.ai_response⟩ db)
    ∧ firstMatch x (update_journey x jc db).2
        = some ⟨x, jc.name, jc.description, j.ai_response⟩ := by
  have hid : j.id = x := firstMatch_id x db j h
  have heq : update_journey x jc db
      = (⟨200, Body.record ⟨x, jc.name, jc.description, j.ai_response⟩⟩,
         replaceFirst x ⟨x, jc.name, jc.description, j.ai_response⟩ db) := by
    simp [update_journey, h, hid]
  refine ⟨heq, ?_⟩
  rw [heq]
  exact firstMatch_replaceFirst x _ db j rfl h

/-- Witness for C4 at the spec's concrete example: updating
`{id:"x", name:"A", description:"B", aiResponse:"C"}` with `{name:"A2",
description:"B2"}` yields `{id:"x", name:"A2", description:"B2",
aiResponse:"C"}`. -/
theorem c4_witness :
    update_journey "x" ⟨"A2", "B2", none⟩ [⟨"x", "A", "B", some "C"⟩]
      = (⟨200, Body.record ⟨"x", "A2", "B2", some "C"⟩⟩,
         replaceFirst "x" ⟨"x", "A2", "B2", some "C"⟩ [⟨"x", "A", "B", some "C"⟩]) :=
  (c4_update_preserves_id_ai_response "x" ⟨"A2", "B2", none⟩
    [⟨"x", "A", "B", some "C"⟩] ⟨"x", "A", "B", some "C"⟩ (by decide)).1

/-- C5: addressing an absent id, the read-one, update and delete handlers each
return HTTP 404 with the fixed message "Journey not found" and leave the table
unchanged — for every table, including the empty one, so a delete on a
nonexistent id is a not-found response and not a crash; moreover (inner
conjunct, quantified over the tables where an id is present), deleting an
existing record and then reading the same id yields that same not-found
response (the Nodup hypothesis is the primary-key uniqueness of `id`). -/
theorem c5_not_found_404 (x : String) (jc : JourneyCreate) (db : DB)
    (habs : firstMatch x db = none) :
    read_journey x db = (⟨404, Body.detail "Journey not found"⟩, db)
    ∧ update_journey x jc db = (⟨404, Body.detail "Journey not found"⟩, db)
    ∧ delete_journey x db = (⟨404, Body.detail "Journey not found"⟩, db)
    ∧ (∀ (y : String) (j : Journey), (ids db).Nodup →
        firstMatch y db = some j →
        (read_journey y (delete_journey y db).2).1
          = ⟨404, Body.detail "Journey not found"⟩) := by
  refine ⟨by simp [read_journey, habs], by simp [update_journey, habs],
    by simp [delete_journey, habs], ?_⟩
  intro y j hnd hy
  have hdel : (delete_journey y db).2 = eraseFirst y db := by
    simp [delete_journey, hy]
  have hnone : firstMatch y (eraseFirst y db) = none :=
    (firstMatch_eq_none_iff y (eraseFirst y db)).2 (not_mem_ids_eraseFirst y db hnd)
  rw [hdel]
  simp [read_journey, hnone]

/-- Witness for C5: a delete on the empty table yields 404 (not a crash), a
read on a one-row table at an absent id yields 404, and deleting the present
id "a" then reading it yields 404. -/
theorem c5_witness :
    delete_journey "zzz" [] = (⟨404, Body.detail "Journey not found"⟩, [])
    ∧ read_journey "zzz" [⟨"a", "n", "d", none⟩]
        = (⟨404, Body.detail "Journey not found"⟩, [⟨"a", "n", "d", none⟩])
    ∧ (read_journey "a" (delete_journey "a" [⟨"a", "n", "d", none⟩]).2).1
        = ⟨404, Body.detail "Journey not found"⟩ := by
  have h0 := c5_not_found_404 "zzz" ⟨"n2", "d2", none⟩ [] (by decide)
  have h1 := c5_not_found_404 "zzz" ⟨"n2", "d2", none⟩
    [⟨"a", "n", "d", none⟩] (by decide)
  exact ⟨h0.2.2.1, h1.1,
    h1.2.2.2 "a" ⟨"a", "n", "d", none⟩ (by decide) (by decide)⟩

/-- C6: a successfully created record's id is present (it equals the generated
uuid, never a client value — `JourneyCreate` has no id field), non-empty, and
distinct from the id of any further create, and the primary-key uniqueness of
`id` over the whole table is preserved. The freshness hypotheses are exactly
what `str(uuid.uuid4())` plus the primary key on `id` supply: an insert whose
id already existed would fail, so a completed create has a fresh id. -/
theorem c6_create_id_nonempty_unique (jc1 jc2 : JourneyCreate) (db : DB)
    (fid1 fid2 : String) (hu : isUuid4String fid1 = true)
    (h1 : fid1 ∉ ids db)
    (h2 : fid2 ∉ ids (create_journey jc1 fid1 db).2)
    (hnd : (ids db).Nodup) :
    (create_journey jc1 fid1 db).1
        = ⟨200, Body.record ⟨fid1, jc1.name, jc1.description, none⟩⟩
    ∧ fid1 ≠ ""
    ∧ fid1 ≠ fid2
    ∧ (ids (create_journey jc2 fid2 (create_journey jc1 fid1 db).2).2).Nodup := by
  have hdb1 : (create_journey jc1 fid1 db).2
      = db ++ [⟨fid1, jc1.name, jc1.description, none⟩] := rfl
  have hmem1 : fid1 ∈ ids (create_journey jc1 fid1 db).2 := by
    rw [hdb1, ids_append_single]
    simp
  refine ⟨rfl, ?_, ?_, ?_⟩
  · intro hempty
    rw [hempty] at hu
    exact absurd hu (by decide)
  · intro heq
    apply h2
    rw [← heq]
    exact hmem1
  · have hnd1 : (ids (create_journey jc1 fid1 db).2).Nodup := by
      rw [hdb1]
      exact ids_snoc_nodup db _ hnd h1
    exact ids_snoc_nodup _ _ hnd1 h2

/-- Witness for C6: two creates with identical name/description and two
concrete uuid4-shaped ids on an empty table. -/
theorem c6_witness :
    (create_journey ⟨"Trip", "Plan", none⟩ "123e4567-e89b-42d3-a456-426614174000" []).1
        = ⟨200, Body.record
            ⟨"123e4567-e89b-42d3-a456-426614174000", "Trip", "Plan", none⟩⟩
    ∧ "123e4567-e89b-42d3-a456-426614174000" ≠ ""
    ∧ "123e4567-e89b-42d3-a456-426614174000" ≠ "00000000-0000-4000-8000-000000000000" :=
  by
  have h := c6_create_id_nonempty_unique ⟨"Trip", "Plan", none⟩ ⟨"Trip", "Plan", none⟩
    [] "123e4567-e89b-42d3-a456-426614174000" "00000000-0000-4000-8000-000000000000"
    (by decide) (by decide) (by decide) (by decide)
  exact ⟨h.1, h.2.1, h.2.2.1⟩

/-- Counterexample for C7: the claim says every failure on the chat-create
path — including request validation — yields HTTP 500. But FastAPI runs the
pydantic validation of the body before the handler's try/except: a body
missing `name` is rejected with 422, not 500. -/
theorem c7_counterexample :
    (postJourneyChat ⟨none, some (JVal.jstr "Plan my trip"), none⟩
        (Except.ok "Bonjour!") (Except.ok ()) (Except.ok ()) "id-7" []).1.status = 422
    ∧ (postJourneyChat ⟨none, some (JVal.jstr "Plan my trip"), none⟩
        (Except.ok "Bonjour!") (Except.ok ()) (Except.ok ()) "id-7" []).1.status ≠ 500 := by
  refine ⟨rfl, ?_⟩
  intro h
  exact absurd h (by decide)

/-- C7 (amended): every exception raised inside the chat-create handler — the
AI call, the storage commit, or the post-commit refresh — surfaces as HTTP 500
with the error's string message in `detail`; request-validation failures,
however, never reach the handler and are rejected with HTTP 422, and no
request on this path produces any status other than 200, 422 or 500. -/
theorem c7_handler_exceptions_500 :
    (∀ (jc : JourneyCreate) (e : String) (commit refresh : Except String Unit)
        (freshId : String) (db : DB),
      (chat_with_mistral jc (Except.error e) commit refresh freshId db).1
        = ⟨500, Body.detail e⟩)
    ∧ (∀ (jc : JourneyCreate) (r e : String) (refresh : Except String Unit)
        (freshId : String) (db : DB),
      (chat_with_mistral jc (Except.ok r) (Except.error e) refresh freshId db).1
        = ⟨500, Body.detail e⟩)
    ∧ (∀ (jc : JourneyCreate) (r e freshId : String) (db : DB),
      (chat_with_mistral jc (Except.ok r) (Except.ok ()) (Except.error e)
          freshId db).1
        = ⟨500, Body.detail e⟩)
    ∧ (∀ (raw : RawBody) (aiCall : Except String String)
        (commit refresh : Except String Unit) (freshId : String) (db : DB)
        (fs : List String),
      validateJourneyCreate raw = Except.error fs →
        (postJourneyChat raw aiCall commit refresh freshId db).1.status = 422)
    ∧ (∀ (raw : RawBody) (aiCall : Except String String)
        (commit refresh : Except String Unit) (freshId : String) (db : DB),
      (postJourneyChat raw aiCall commit refresh freshId db).1.status = 200
      ∨ (postJourneyChat raw aiCall commit refresh freshId db).1.status = 422
      ∨ (postJourneyChat raw aiCall commit refresh freshId db).1.status = 500) := by
  refine ⟨fun _ _ _ _ _ _ => rfl, fun _ _ _ _ _ _ => rfl,
    fun _ _ _ _ _ => rfl, ?_, ?_⟩
  · intro raw aiCall commit refresh freshId db fs hv
    simp [postJourneyChat, hv]
  · intro raw aiCall commit refresh freshId db
    cases hval : validateJourneyCreate raw with
    | error fs => simp [postJourneyChat, hval]
    | ok jc =>
      cases aiCall with
      | error e => simp [postJourneyChat, hval, chat_with_mistral]
      | ok r =>
        cases commit with
        | error e => simp [postJourneyChat, hval, chat_with_mistral]
        | ok u =>
          cases refresh with
          | error e => simp [postJourneyChat, hval, chat_with_mistral]
          | ok v => simp [postJourneyChat, hval, chat_with_mistral]

/-- Witness for C7 (amended) at concrete inputs: an AI failure, a commit
failure and a post-commit refresh failure each give 500 carrying the message,
and a body whose `description` is null gives 422. -/
theorem c7_witness :
    (chat_with_mistral ⟨"Trip", "Plan", none⟩ (Except.error "boom")
        (Except.ok ()) (Except.ok ()) "id-7a" []).1 = ⟨500, Body.detail "boom"⟩
    ∧ (chat_with_mistral ⟨"Trip", "Plan", none⟩ (Except.ok "Bonjour!")
        (Except.error "disk full") (Except.ok ()) "id-7b" []).1
        = ⟨500, Body.detail "disk full"⟩
    ∧ (chat_with_mistral ⟨"Trip", "Plan", none⟩ (Except.ok "Bonjour!")
        (Except.ok ()) (Except.error "stale row") "id-7c" []).1
        = ⟨500, Body.detail "stale row"⟩
    ∧ (postJourneyChat ⟨some (JVal.jstr "Trip"), some JVal.jnull, none⟩
        (Except.ok "Bonjour!") (Except.ok ()) (Except.ok ()) "id-7d" []).1.status
        = 422 :=
  ⟨c7_handler_exceptions_500.1 ⟨"Trip", "Plan", none⟩ "boom"
     (Except.ok ()) (Except.ok ()) "id-7a" [],
   c7_handler_exceptions_500.2.1 ⟨"Trip", "Plan", none⟩ "Bonjour!" "disk full"
     (Except.ok ()) "id-7b" [],
   c7_handler_exceptions_500.2.2.1 ⟨"Trip", "Plan", none⟩ "Bonjour!" "stale row"
     "id-7c" [],
   c7_handler_exceptions_500.2.2.2.1 ⟨some (JVal.jstr "Trip"), some JVal.jnull, none⟩
     (Except.ok "Bonjour!") (Except.ok ()) (Except.ok ()) "id-7d" []
     ["description"] rfl⟩
